import Mathlib

/-!
Shallow embedding of the todo application backend data layer
(packages/backend/src): the SQLite database state, the migration runner
(`DatabaseMigrations` in database/migrations.ts), the schema-aware todo
repository (`TodoService` in services/TodoService.ts), the user service
(`UserService` in services/UserService.ts) and the list service
(`TodoListService`).

Conventions of the embedding:
* every table is a list of row structures in insertion order; `db.get`
  (sqlite3 `get`, first matching row) becomes `List.find?`, `db.all`
  becomes `List.filter` plus the translated ORDER BY, `run` for INSERT
  appends a row with the next AUTOINCREMENT id, `run` for UPDATE and
  DELETE maps or filters the list and reports `changes` as the count of
  matched rows;
* timestamps are naturals; a row inserted with a DATETIME default
  receives the clock value `db.now`;
* thrown `Error` values are `Except.error` carrying the exact message
  string the source builds, including the re-wrapping performed by each
  catch block;
* every service call returns its final state next to the result, because
  in the source a throw does not roll back writes already performed.
-/

set_option maxRecDepth 8000

namespace KiroTodo

/-- ECMAScript `String.prototype.trim` removes the WhiteSpace and
LineTerminator code points; the backend runs on Node, so the embedding of
`text.trim()` uses this character class rather than Lean `String.trim`. -/
def isJsWhitespace (c : Char) : Bool :=
  c == ' ' || c == '\t' || c == '\n' || c == '\r' || c == '\x0b' || c == '\x0c' ||
  c == '\u00a0' || c == '\ufeff' || c == '\u2028' || c == '\u2029'

/-- Embedding of JavaScript `s.trim()`. -/
def jsTrim (s : String) : String :=
  String.mk (((s.data.dropWhile isJsWhitespace).reverse.dropWhile isJsWhitespace).reverse)

/-- Row of the legacy flat `todos` table
(`todos(id, text, completed, created_at, updated_at, username)`); the
`username` column only physically exists once `add_username_column` has
run, which the flag `DB.legacyHasUsernameColumn` records. -/
structure LegacyTodoRow where
  id : Nat
  text : String
  completed : Bool
  created_at : Nat
  updated_at : Nat
  username : String
  deriving Repr, DecidableEq

/-- Row of the normalized `users` table. -/
structure UserRow where
  id : Nat
  username : String
  created_at : Nat
  deriving Repr, DecidableEq

/-- Row of the normalized `todo_lists` table. -/
structure ListRow where
  id : Nat
  name : String
  user_id : Nat
  created_at : Nat
  deriving Repr, DecidableEq

/-- Row of the normalized `todos` table (and of the staging table
`todos_new` the migration fills before the rename). -/
structure TodoRow where
  id : Nat
  text : String
  completed : Bool
  list_id : Nat
  created_at : Nat
  deriving Repr, DecidableEq

/-- The whole SQLite database file. `legacyTodos` is the live `todos`
table while it still has the flat shape, `todos` is the live table after
the normalization migration renamed `todos_new` over it, `todosOld` the
archived copy. `migrations` is the ledger (list of recorded names);
`migrationsTableExists` tells whether the `migrations` table itself has
been created, since querying it before that throws. The `next*` fields
are the AUTOINCREMENT counters and `now` is the CURRENT_TIMESTAMP
clock. -/
structure DB where
  legacyTodos : List LegacyTodoRow
  todosNew : List TodoRow
  todos : List TodoRow
  todosOld : List LegacyTodoRow
  users : List UserRow
  lists : List ListRow
  migrations : List String
  migrationsTableExists : Bool
  legacyHasUsernameColumn : Bool
  nextUserId : Nat
  nextListId : Nat
  nextTodoId : Nat
  now : Nat
  deriving Repr, DecidableEq

namespace DatabaseMigrations

/-- `createMigrationsTable`: CREATE TABLE IF NOT EXISTS migrations. -/
def createMigrationsTable (db : DB) : DB :=
  { db with migrationsTableExists := true }

/-- `addUsernameColumnMigration`: skip when the name is in the ledger;
otherwise ALTER TABLE todos ADD COLUMN username DEFAULT "" when the live
introspection (PRAGMA table_info) shows no such column, then record the
name. -/
def addUsernameColumnMigration (db : DB) : DB :=
  if ("add_username_column" : String) ∈ db.migrations then db
  else
    let db :=
      if db.legacyHasUsernameColumn then db
      else
        { db with
            legacyHasUsernameColumn := true
            legacyTodos := db.legacyTodos.map (fun r => { r with username := "" }) }
    { db with migrations := db.migrations ++ ["add_username_column"] }

/-- `createDefaultUser` inside the normalization migration: reuse the row
named `default_user` when present, otherwise insert it. Returns the user
id exactly as the source returns `{ id, username }`. -/
def createDefaultUser (db : DB) : Nat × DB :=
  match db.users.find? (fun u => u.username == "default_user") with
  | some u => (u.id, db)
  | none =>
      (db.nextUserId,
       { db with
           users := db.users ++ [⟨db.nextUserId, "default_user", db.now⟩]
           nextUserId := db.nextUserId + 1 })

/-- `createDefaultList` inside the normalization migration: reuse the
`My Tasks` list of the given user when present, otherwise insert it. -/
def createDefaultList (db : DB) (userId : Nat) : Nat × DB :=
  match db.lists.find? (fun l => l.user_id == userId && l.name == "My Tasks") with
  | some l => (l.id, db)
  | none =>
      (db.nextListId,
       { db with
           lists := db.lists ++ [⟨db.nextListId, "My Tasks", userId, db.now⟩]
           nextListId := db.nextListId + 1 })

/-- One INSERT INTO todos_new (text, completed, list_id, created_at). -/
def insertTodoNew (db : DB) (text : String) (completed : Bool)
    (listId createdAt : Nat) : DB :=
  { db with
      todosNew := db.todosNew ++ [⟨db.nextTodoId, text, completed, listId, createdAt⟩]
      nextTodoId := db.nextTodoId + 1 }

/-- `migrateExistingTodos`: copy every legacy row into `todos_new`,
preserving text, completed and created_at and setting `list_id`. -/
def migrateExistingTodos (db : DB) (rows : List LegacyTodoRow) (listId : Nat) : DB :=
  rows.foldl (fun d r => insertTodoNew d r.text r.completed listId r.created_at) db

/-- `migrateToMultiListSchema`: skip when recorded; otherwise create the
three normalized tables (CREATE IF NOT EXISTS — tables are always
present in the model, so those steps are identities), copy the legacy
rows under the synthesized default user and list when there are any,
rename `todos` to `todos_old` and `todos_new` to `todos`, build the
indexes (no observable state here) and record the name. -/
def migrateToMultiListSchema (db : DB) : DB :=
  if ("migrate_to_multi_list_schema" : String) ∈ db.migrations then db
  else
    let existingTodos := db.legacyTodos
    let db :=
      if existingTodos.length > 0 then
        let p := createDefaultUser db
        let q := createDefaultList p.2 p.1
        migrateExistingTodos q.2 existingTodos q.1
      else db
    let db :=
      { db with
          todosOld := db.legacyTodos
          legacyTodos := []
          todos := db.todosNew
          todosNew := [] }
    { db with migrations := db.migrations ++ ["migrate_to_multi_list_schema"] }

/-- `runMigrations` (the applyAll entry point): create the ledger table,
then the two migrations in their fixed order. -/
def runMigrations (db : DB) : DB :=
  migrateToMultiListSchema (addUsernameColumnMigration (createMigrationsTable db))

end DatabaseMigrations

/-- `Todo` shape of types/todo.ts used by the new-schema code paths. -/
structure Todo where
  id : Nat
  text : String
  completed : Bool
  list_id : Nat
  created_at : Nat
  deriving Repr, DecidableEq

/-- `LegacyTodo` shape of types/todo.ts (camelCase timestamps) returned by
the owner-keyed repository methods. -/
structure LegacyTodo where
  id : Nat
  text : String
  completed : Bool
  createdAt : Nat
  updatedAt : Nat
  deriving Repr, DecidableEq

/-- `CreateTodoRequest` body: text plus the optional `list_id`. -/
structure CreateTodoRequest where
  text : String
  list_id : Option Nat := none
  deriving Repr, DecidableEq

namespace TodoService

/-- In-memory state of one `TodoService` instance: the shared database
plus the per-instance `isNewSchema` cache (`null` before the first
`checkSchemaVersion`). -/
structure St where
  db : DB
  isNewSchema : Option Bool
  deriving Repr, DecidableEq

/-- `mapRowToTodoNewSchema`. -/
def mapRowToTodoNewSchema (r : TodoRow) : Todo :=
  ⟨r.id, r.text, r.completed, r.list_id, r.created_at⟩

/-- `mapToLegacyTodo`: `created_at` stands in for the missing
`updated_at`. -/
def mapToLegacyTodo (t : Todo) : LegacyTodo :=
  ⟨t.id, t.text, t.completed, t.created_at, t.created_at⟩

/-- `mapRowToTodoOldSchemaLegacy`. -/
def mapRowToTodoOldSchemaLegacy (r : LegacyTodoRow) : LegacyTodo :=
  ⟨r.id, r.text, r.completed, r.created_at, r.updated_at⟩

/-- `checkSchemaVersion`: answer from the cache when set; otherwise query
the ledger for `migrate_to_multi_list_schema` and cache the answer. A
throw from the ledger query (the `migrations` table does not exist) is
caught and classified as the old schema. -/
def checkSchemaVersion (st : St) : Bool × St :=
  match st.isNewSchema with
  | some b => (b, st)
  | none =>
      if st.db.migrationsTableExists then
        let b := decide (("migrate_to_multi_list_schema" : String) ∈ st.db.migrations)
        (b, { st with isNewSchema := some b })
      else
        (false, { st with isNewSchema := some false })

/-- `getDefaultListId`: get or create the `users` row with exactly the
given username (no trim, no validation), then get or create its
`My Tasks` list, and return that list id. -/
def getDefaultListId (st : St) (username : String) : Nat × St :=
  let db := st.db
  let p : Nat × DB :=
    match db.users.find? (fun u => u.username == username) with
    | some u => (u.id, db)
    | none =>
        (db.nextUserId,
         { db with
             users := db.users ++ [⟨db.nextUserId, username, db.now⟩]
             nextUserId := db.nextUserId + 1 })
  let db1 := p.2
  let q : Nat × DB :=
    match db1.lists.find? (fun l => l.user_id == p.1 && l.name == "My Tasks") with
    | some l => (l.id, db1)
    | none =>
        (db1.nextListId,
         { db1 with
             lists := db1.lists ++ [⟨db1.nextListId, "My Tasks", p.1, db1.now⟩]
             nextListId := db1.nextListId + 1 })
  (q.1, { st with db := q.2 })

/-- Translation of `list_id IN (SELECT id FROM todo_lists WHERE
user_id = ?)` and of the `JOIN todo_lists tl ON t.list_id = tl.id ...
tl.user_id = ?` condition. -/
def ownedList (db : DB) (uid lid : Nat) : Bool :=
  db.lists.any (fun l => l.id == lid && l.user_id == uid)

/-- ORDER BY completed ASC, created_at DESC for normalized rows. -/
def todoLe (a b : TodoRow) : Bool :=
  if a.completed == b.completed then Nat.ble b.created_at a.created_at
  else b.completed

/-- ORDER BY completed ASC, created_at DESC for legacy rows. -/
def legacyTodoLe (a b : LegacyTodoRow) : Bool :=
  if a.completed == b.completed then Nat.ble b.created_at a.created_at
  else b.completed

/-- Insertion step of the sort standing in for the SQL ORDER BY. -/
def insertLe (le : α → α → Bool) (x : α) : List α → List α
  | [] => [x]
  | y :: ys => if le x y then x :: y :: ys else y :: insertLe le x ys

/-- Sort standing in for the SQL ORDER BY (which fixes no tie order). -/
def sortLe (le : α → α → Bool) : List α → List α
  | [] => []
  | x :: xs => insertLe le x (sortLe le xs)

/-- `getTodoById` helper: under the new schema resolve the user row, then
the first row of the todo joined against a list of that user; under the
old schema the first row with this id and username. Never throws (its
catch only rewraps storage errors, which the model does not produce). -/
def getTodoById (st : St) (id : Nat) (username : String) : Option LegacyTodo × St :=
  let p := checkSchemaVersion st
  let st := p.2
  if p.1 then
    match st.db.users.find? (fun u => u.username == username) with
    | none => (none, st)
    | some u =>
        let row := st.db.todos.find? (fun t => t.id == id && ownedList st.db u.id t.list_id)
        (row.map (fun r => mapToLegacyTodo (mapRowToTodoNewSchema r)), st)
  else
    let row := st.db.legacyTodos.find? (fun t => t.id == id && t.username == username)
    (row.map mapRowToTodoOldSchemaLegacy, st)

/-- `getTodoByIdInList` helper (new schema only; throws its wrapped
schema error when the migration has not run). -/
def getTodoByIdInList (st : St) (id listId : Nat) :
    Except String (Option Todo) × St :=
  let p := checkSchemaVersion st
  let st := p.2
  if p.1 then
    ((Except.ok ((st.db.todos.find? (fun t => t.id == id && t.list_id == listId)).map
        mapRowToTodoNewSchema)), st)
  else
    (Except.error ("Failed to retrieve todo by ID in list: List-based operations require the new schema. Please run database migration first."), st)

/-- `getAllTodos(username)`: new schema resolves (or creates) the default
list and filters on `list_id`; old schema filters the legacy table on
the username column; both order completed ASC, created_at DESC. -/
def getAllTodos (st : St) (username : String) :
    Except String (List LegacyTodo) × St :=
  let p := checkSchemaVersion st
  let st := p.2
  if p.1 then
    let q := getDefaultListId st username
    let st := q.2
    let rows := sortLe todoLe (st.db.todos.filter (fun t => t.list_id == q.1))
    (Except.ok (rows.map (fun r => mapToLegacyTodo (mapRowToTodoNewSchema r))), st)
  else
    let rows := sortLe legacyTodoLe
      (st.db.legacyTodos.filter (fun t => t.username == username))
    (Except.ok (rows.map mapRowToTodoOldSchemaLegacy), st)

/-- `createTodo(username, data)`: validate the trimmed text, then insert
into whichever live table the schema check selects and re-read the
created row. `data.list_id || getDefaultListId(...)` makes a provided
list id of 0 fall back to the default list, JavaScript 0 being falsy. -/
def createTodo (st : St) (username : String) (data : CreateTodoRequest) :
    Except String LegacyTodo × St :=
  let trimmedText := jsTrim data.text
  if trimmedText.length == 0 then
    (Except.error ("Todo text cannot be empty or contain only whitespace"), st)
  else if 500 < trimmedText.length then
    (Except.error ("Todo text cannot exceed 500 characters"), st)
  else
    let p := checkSchemaVersion st
    let st := p.2
    if p.1 then
      let q : Nat × St :=
        match data.list_id with
        | some l => if l != 0 then (l, st) else getDefaultListId st username
        | none => getDefaultListId st username
      let st := q.2
      let verified : Except String Unit :=
        match data.list_id with
        | some l =>
            if l != 0 then
              match st.db.users.find? (fun u => u.username == username) with
              | none => Except.error ("User not found")
              | some u =>
                  match st.db.lists.find? (fun li => li.id == l && li.user_id == u.id) with
                  | none => Except.error ("List not found or does not belong to user")
                  | some _ => Except.ok ()
            else Except.ok ()
        | none => Except.ok ()
      match verified with
      | Except.error e => (Except.error ("Failed to create todo: " ++ e), st)
      | Except.ok _ =>
          let db := st.db
          let newId := db.nextTodoId
          let db :=
            { db with
                todos := db.todos ++ [⟨newId, trimmedText, false, q.1, db.now⟩]
                nextTodoId := newId + 1 }
          let st := { st with db := db }
          let r := getTodoById st newId username
          match r.1 with
          | some todo => (Except.ok todo, r.2)
          | none => (Except.error ("Failed to create todo: Failed to retrieve created todo"), r.2)
    else
      let db := st.db
      let newId := db.nextTodoId
      let db :=
        { db with
            legacyTodos := db.legacyTodos ++
              [⟨newId, trimmedText, false, db.now, db.now, username⟩]
            nextTodoId := newId + 1 }
      let st := { st with db := db }
      let r := getTodoById st newId username
      match r.1 with
      | some todo => (Except.ok todo, r.2)
      | none => (Except.error ("Failed to create todo: Failed to retrieve created todo"), r.2)

/-- `updateTodo(username, id, { completed })`: reject a non-positive id,
look the todo up under the caller, then UPDATE guarded by the ownership
condition of the live schema and re-read. Every error thrown inside the
try block leaves wrapped as `Failed to update todo: ...`. -/
def updateTodo (st : St) (username : String) (id : Nat) (completed : Bool) :
    Except String LegacyTodo × St :=
  if id == 0 then (Except.error ("Todo ID must be a positive integer"), st)
  else
    let g := getTodoById st id username
    let st := g.2
    match g.1 with
    | none =>
        (Except.error ("Failed to update todo: Todo with ID " ++ toString id ++ " not found"), st)
    | some _ =>
        let p := checkSchemaVersion st
        let st := p.2
        if p.1 then
          match st.db.users.find? (fun u => u.username == username) with
          | none => (Except.error ("Failed to update todo: User not found"), st)
          | some u =>
              let db := st.db
              let changes := db.todos.countP (fun t => t.id == id && ownedList db u.id t.list_id)
              let db :=
                { db with
                    todos := db.todos.map (fun t =>
                      if t.id == id && ownedList db u.id t.list_id then
                        { t with completed := completed }
                      else t) }
              let st := { st with db := db }
              if changes == 0 then
                (Except.error ("Failed to update todo: Todo with ID " ++ toString id ++ " not found"), st)
              else
                let r := getTodoById st id username
                match r.1 with
                | some todo => (Except.ok todo, r.2)
                | none => (Except.error ("Failed to update todo: Failed to retrieve updated todo"), r.2)
        else
          let db := st.db
          let changes := db.legacyTodos.countP (fun t => t.id == id && t.username == username)
          let db :=
            { db with
                legacyTodos := db.legacyTodos.map (fun t =>
                  if t.id == id && t.username == username then
                    { t with completed := completed }
                  else t) }
          let st := { st with db := db }
          if changes == 0 then
            (Except.error ("Failed to update todo: Todo with ID " ++ toString id ++ " not found"), st)
          else
            let r := getTodoById st id username
            match r.1 with
            | some todo => (Except.ok todo, r.2)
            | none => (Except.error ("Failed to update todo: Failed to retrieve updated todo"), r.2)

/-- `deleteTodo(username, id)`: reject a non-positive id, look the todo
up under the caller, then DELETE guarded by the ownership condition of
the live schema. -/
def deleteTodo (st : St) (username : String) (id : Nat) :
    Except String Unit × St :=
  if id == 0 then (Except.error ("Todo ID must be a positive integer"), st)
  else
    let g := getTodoById st id username
    let st := g.2
    match g.1 with
    | none =>
        (Except.error ("Failed to delete todo: Todo with ID " ++ toString id ++ " not found"), st)
    | some _ =>
        let p := checkSchemaVersion st
        let st := p.2
        if p.1 then
          match st.db.users.find? (fun u => u.username == username) with
          | none => (Except.error ("Failed to delete todo: User not found"), st)
          | some u =>
              let db := st.db
              let changes := db.todos.countP (fun t => t.id == id && ownedList db u.id t.list_id)
              let db :=
                { db with
                    todos := db.todos.filter (fun t =>
                      !(t.id == id && ownedList db u.id t.list_id)) }
              let st := { st with db := db }
              if changes == 0 then
                (Except.error ("Failed to delete todo: Todo with ID " ++ toString id ++ " not found"), st)
              else (Except.ok (), st)
        else
          let db := st.db
          let changes := db.legacyTodos.countP (fun t => t.id == id && t.username == username)
          let db :=
            { db with
                legacyTodos := db.legacyTodos.filter (fun t =>
                  !(t.id == id && t.username == username)) }
          let st := { st with db := db }
          if changes == 0 then
            (Except.error ("Failed to delete todo: Todo with ID " ++ toString id ++ " not found"), st)
          else (Except.ok (), st)

/-- `moveTodoToList(todoId, targetListId, userId)` (new schema only):
verify the target list belongs to the user, verify the todo sits in a
list of the user, reassign `list_id`, re-read from the target list. -/
def moveTodoToList (st : St) (todoId targetListId userId : Nat) :
    Except String Todo × St :=
  if todoId == 0 then (Except.error ("Todo ID must be a positive integer"), st)
  else if targetListId == 0 then
    (Except.error ("Target list ID must be a positive integer"), st)
  else if userId == 0 then (Except.error ("User ID must be a positive integer"), st)
  else
    let p := checkSchemaVersion st
    let st := p.2
    if !p.1 then
      (Except.error ("Failed to move todo: List-based operations require the new schema. Please run database migration first."), st)
    else
      match st.db.lists.find? (fun l => l.id == targetListId && l.user_id == userId) with
      | none =>
          (Except.error ("Failed to move todo: Target list not found or does not belong to user"), st)
      | some _ =>
          match st.db.todos.find? (fun t => t.id == todoId && ownedList st.db userId t.list_id) with
          | none =>
              (Except.error ("Failed to move todo: Todo not found or does not belong to user"), st)
          | some _ =>
              let db := st.db
              let changes := db.todos.countP (fun t => t.id == todoId)
              let db :=
                { db with
                    todos := db.todos.map (fun t =>
                      if t.id == todoId then { t with list_id := targetListId } else t) }
              let st := { st with db := db }
              if changes == 0 then
                (Except.error ("Failed to move todo: Failed to move todo to target list"), st)
              else
                let r := getTodoByIdInList st todoId targetListId
                match r.1 with
                | Except.error e => (Except.error ("Failed to move todo: " ++ e), r.2)
                | Except.ok none =>
                    (Except.error ("Failed to move todo: Failed to retrieve moved todo"), r.2)
                | Except.ok (some todo) => (Except.ok todo, r.2)

end TodoService

namespace UserService

/-- `createDefaultList(userId)` of UserService: verify the user row
exists, reuse an existing `My Tasks` list, otherwise insert one and
re-read it. Errors thrown inside the try leave wrapped as
`Failed to create default list: ...`. -/
def createDefaultList (db : DB) (userId : Nat) : Except String ListRow × DB :=
  if userId == 0 then (Except.error ("User ID must be a positive integer"), db)
  else
    match db.users.find? (fun u => u.id == userId) with
    | none =>
        (Except.error ("Failed to create default list: User with ID " ++ toString userId ++ " not found"), db)
    | some _ =>
        match db.lists.find? (fun l => l.user_id == userId && l.name == "My Tasks") with
        | some l => (Except.ok l, db)
        | none =>
            let newId := db.nextListId
            let db :=
              { db with
                  lists := db.lists ++ [⟨newId, "My Tasks", userId, db.now⟩]
                  nextListId := newId + 1 }
            match db.lists.find? (fun l => l.id == newId) with
            | some l => (Except.ok l, db)
            | none =>
                (Except.error ("Failed to create default list: Failed to retrieve created default list"), db)

/-- `getOrCreateUser(username)`: validate the trimmed username (nonempty,
at most 50 characters), return the existing row when present, otherwise
insert the trimmed username, synthesize the default list and re-read the
created user. The UNIQUE-race catch of the source never fires in this
sequential model. -/
def getOrCreateUser (db : DB) (username : String) : Except String UserRow × DB :=
  let trimmedUsername := jsTrim username
  if trimmedUsername.length == 0 then
    (Except.error ("Username cannot be empty or contain only whitespace"), db)
  else if 50 < trimmedUsername.length then
    (Except.error ("Username cannot exceed 50 characters"), db)
  else
    match db.users.find? (fun u => u.username == trimmedUsername) with
    | some u => (Except.ok u, db)
    | none =>
        let newId := db.nextUserId
        let db :=
          { db with
              users := db.users ++ [⟨newId, trimmedUsername, db.now⟩]
              nextUserId := newId + 1 }
        let r := createDefaultList db newId
        match r.1 with
        | Except.error e => (Except.error ("Failed to get or create user: " ++ e), r.2)
        | Except.ok _ =>
            let db := r.2
            match db.users.find? (fun u => u.id == newId) with
            | some u => (Except.ok u, db)
            | none =>
                (Except.error ("Failed to get or create user: Failed to retrieve created user"), db)

end UserService

namespace TodoListService

/-- `updateListName(listId, name, userId?)`: validate, fetch the list,
enforce ownership when a user id is supplied (reporting not-found, not
forbidden), reject a name collision with a different list of the same
user, then UPDATE and re-read. -/
def updateListName (db : DB) (listId : Nat) (name : String) (userId : Option Nat) :
    Except String ListRow × DB :=
  if listId == 0 then (Except.error ("List ID must be a positive integer"), db)
  else
    let trimmedName := jsTrim name
    if trimmedName.length == 0 then
      (Except.error ("List name cannot be empty or contain only whitespace"), db)
    else if 100 < trimmedName.length then
      (Except.error ("List name cannot exceed 100 characters"), db)
    else
      match db.lists.find? (fun l => l.id == listId) with
      | none =>
          (Except.error ("Failed to update list name: List with ID " ++ toString listId ++ " not found"), db)
      | some existingList =>
          if (match userId with
              | some uid => existingList.user_id != uid
              | none => false) then
            (Except.error ("Failed to update list name: List with ID " ++ toString listId ++ " not found"), db)
          else
            match db.lists.find? (fun l =>
                l.user_id == existingList.user_id && l.name == trimmedName && l.id != listId) with
            | some _ =>
                (Except.error ("Failed to update list name: A list named \"" ++ trimmedName ++ "\" already exists for this user"), db)
            | none =>
                let changes := db.lists.countP (fun l => l.id == listId)
                let db :=
                  { db with
                      lists := db.lists.map (fun l =>
                        if l.id == listId then { l with name := trimmedName } else l) }
                if changes == 0 then
                  (Except.error ("Failed to update list name: List with ID " ++ toString listId ++ " not found"), db)
                else
                  match db.lists.find? (fun l => l.id == listId) with
                  | some updated => (Except.ok updated, db)
                  | none =>
                      (Except.error ("Failed to update list name: Failed to retrieve updated list"), db)

/-- `deleteList(listId, userId?)`: fetch the list, enforce ownership when
a user id is supplied (reporting not-found), refuse to delete the last
remaining list of its owner, then DELETE the row. The connection never
issues PRAGMA foreign_keys, so the ON DELETE CASCADE clause is inert at
runtime and the `todos` table is untouched. -/
def deleteList (db : DB) (listId : Nat) (userId : Option Nat) :
    Except String Unit × DB :=
  if listId == 0 then (Except.error ("List ID must be a positive integer"), db)
  else
    match db.lists.find? (fun l => l.id == listId) with
    | none =>
        (Except.error ("Failed to delete list: List with ID " ++ toString listId ++ " not found"), db)
    | some existingList =>
        if (match userId with
            | some uid => existingList.user_id != uid
            | none => false) then
          (Except.error ("Failed to delete list: List with ID " ++ toString listId ++ " not found"), db)
        else
          let count := db.lists.countP (fun l => l.user_id == existingList.user_id)
          if count ≤ 1 then
            (Except.error ("Failed to delete list: Cannot delete the last remaining list. Users must have at least one list."), db)
          else
            let changes := db.lists.countP (fun l => l.id == listId)
            let db := { db with lists := db.lists.filter (fun l => !(l.id == listId)) }
            if changes == 0 then
              (Except.error ("Failed to delete list: List with ID " ++ toString listId ++ " not found"), db)
            else (Except.ok (), db)

end TodoListService

/-! Sample database states used by the witness theorems. -/

/-- Normalized-schema sample: alice owns list 1 holding todo 1, bob owns
list 2; both migrations recorded. -/
def sampleNormDB : DB :=
  { legacyTodos := []
    todosNew := []
    todos := [⟨1, "alpha", false, 1, 10⟩]
    todosOld := []
    users := [⟨1, "alice", 5⟩, ⟨2, "bob", 6⟩]
    lists := [⟨1, "My Tasks", 1, 5⟩, ⟨2, "My Tasks", 2, 6⟩]
    migrations := ["add_username_column", "migrate_to_multi_list_schema"]
    migrationsTableExists := true
    legacyHasUsernameColumn := true
    nextUserId := 3, nextListId := 3, nextTodoId := 2, now := 99 }

/-- Legacy-schema sample: the flat table holds one todo of alice; only
the username-column migration is recorded. -/
def sampleLegacyDB : DB :=
  { legacyTodos := [⟨1, "alpha", false, 10, 10, "alice"⟩]
    todosNew := []
    todos := []
    todosOld := []
    users := []
    lists := []
    migrations := ["add_username_column"]
    migrationsTableExists := true
    legacyHasUsernameColumn := true
    nextUserId := 1, nextListId := 1, nextTodoId := 2, now := 99 }

/-- Pre-migration sample: two legacy rows, no ledger yet. -/
def samplePreMigrationDB : DB :=
  { legacyTodos := [⟨1, "alpha", false, 10, 11, ""⟩, ⟨2, "beta", true, 20, 21, ""⟩]
    todosNew := []
    todos := []
    todosOld := []
    users := []
    lists := []
    migrations := []
    migrationsTableExists := false
    legacyHasUsernameColumn := true
    nextUserId := 1, nextListId := 1, nextTodoId := 3, now := 99 }

namespace DatabaseMigrations

/-- Spec-level description of the data copy: the rows `todos_new`
receives for a run starting at AUTOINCREMENT value `nid`. -/
def copyRows (nid listId : Nat) : List LegacyTodoRow → List TodoRow
  | [] => []
  | r :: rs => ⟨nid, r.text, r.completed, listId, r.created_at⟩ :: copyRows (nid + 1) listId rs

theorem copyRows_getElem? (lid : Nat) (rows : List LegacyTodoRow) :
    ∀ (nid i : Nat),
      (copyRows nid lid rows)[i]? =
        (rows[i]?).map (fun r => (⟨nid + i, r.text, r.completed, lid, r.created_at⟩ : TodoRow)) := by
  induction rows with
  | nil => intro nid i; simp [copyRows]
  | cons r rs ih =>
      intro nid i
      cases i with
      | zero => simp [copyRows]
      | succ j =>
          simp only [copyRows, List.getElem?_cons_succ, ih (nid + 1) j]
          have : nid + 1 + j = nid + (j + 1) := by omega
          rw [this]

theorem copyRows_length (lid : Nat) (rows : List LegacyTodoRow) :
    ∀ nid : Nat, (copyRows nid lid rows).length = rows.length := by
  induction rows with
  | nil => intro nid; rfl
  | cons r rs ih => intro nid; simp [copyRows, ih]

theorem migrateExistingTodos_spec (lid : Nat) (rows : List LegacyTodoRow) :
    ∀ db : DB,
      migrateExistingTodos db rows lid =
        { db with
            todosNew := db.todosNew ++ copyRows db.nextTodoId lid rows
            nextTodoId := db.nextTodoId + rows.length } := by
  induction rows with
  | nil => intro db; simp [migrateExistingTodos, copyRows]
  | cons r rs ih =>
      intro db
      show migrateExistingTodos (insertTodoNew db r.text r.completed lid r.created_at) rs lid = _
      rw [ih]
      simp [insertTodoNew, copyRows]
      omega

theorem addUsernameColumnMigration_mem (db : DB) :
    ("add_username_column" : String) ∈ (addUsernameColumnMigration db).migrations := by
  unfold addUsernameColumnMigration
  split
  · assumption
  · split <;> simp

theorem addUsernameColumnMigration_mte (db : DB) :
    (addUsernameColumnMigration db).migrationsTableExists = db.migrationsTableExists := by
  unfold addUsernameColumnMigration
  split
  · rfl
  · split <;> rfl

theorem createDefaultUser_migrations (db : DB) :
    (createDefaultUser db).2.migrations = db.migrations := by
  unfold createDefaultUser; split <;> rfl

theorem createDefaultList_migrations (db : DB) (uid : Nat) :
    (createDefaultList db uid).2.migrations = db.migrations := by
  unfold createDefaultList; split <;> rfl

theorem createDefaultUser_mte (db : DB) :
    (createDefaultUser db).2.migrationsTableExists = db.migrationsTableExists := by
  unfold createDefaultUser; split <;> rfl

theorem createDefaultList_mte (db : DB) (uid : Nat) :
    (createDefaultList db uid).2.migrationsTableExists = db.migrationsTableExists := by
  unfold createDefaultList; split <;> rfl

theorem migrateExistingTodos_migrations (db : DB) (rows : List LegacyTodoRow) (lid : Nat) :
    (migrateExistingTodos db rows lid).migrations = db.migrations := by
  rw [migrateExistingTodos_spec]

theorem migrateExistingTodos_mte (db : DB) (rows : List LegacyTodoRow) (lid : Nat) :
    (migrateExistingTodos db rows lid).migrationsTableExists = db.migrationsTableExists := by
  rw [migrateExistingTodos_spec]

theorem migrateToMultiListSchema_mem (db : DB) :
    ("migrate_to_multi_list_schema" : String) ∈ (migrateToMultiListSchema db).migrations := by
  unfold migrateToMultiListSchema
  split
  · assumption
  · dsimp only
    simp

theorem migrateToMultiListSchema_mem_preserved (db : DB) (s : String)
    (h : s ∈ db.migrations) : s ∈ (migrateToMultiListSchema db).migrations := by
  unfold migrateToMultiListSchema
  split
  · exact h
  · dsimp only
    simp only [List.mem_append]
    left
    split
    · simp only [migrateExistingTodos_migrations, createDefaultList_migrations,
        createDefaultUser_migrations]
      exact h
    · exact h

theorem migrateToMultiListSchema_mte (db : DB) :
    (migrateToMultiListSchema db).migrationsTableExists = db.migrationsTableExists := by
  unfold migrateToMultiListSchema
  split
  · rfl
  · dsimp only
    split
    · simp only [migrateExistingTodos_mte, createDefaultList_mte, createDefaultUser_mte]
    · rfl

end DatabaseMigrations

/-- C2: the migration runner is idempotent as a whole: a second
`runMigrations` (the applyAll of the spec) on the state a first run
produced changes nothing — the ledger already holds both migration
names, so both steps are skipped and no duplicate default user, default
list, column or data copy can arise; in particular every table keeps its
exact row list and count. -/
theorem claim_C2 (db : DB) :
    DatabaseMigrations.runMigrations (DatabaseMigrations.runMigrations db) =
      DatabaseMigrations.runMigrations db := by
  set y := DatabaseMigrations.runMigrations db with hy
  have hm1 : ("add_username_column" : String) ∈ y.migrations := by
    rw [hy]
    exact DatabaseMigrations.migrateToMultiListSchema_mem_preserved _ _
      (DatabaseMigrations.addUsernameColumnMigration_mem _)
  have hm2 : ("migrate_to_multi_list_schema" : String) ∈ y.migrations := by
    rw [hy]
    exact DatabaseMigrations.migrateToMultiListSchema_mem _
  have hmte : y.migrationsTableExists = true := by
    rw [hy]
    show (DatabaseMigrations.migrateToMultiListSchema
        (DatabaseMigrations.addUsernameColumnMigration
          (DatabaseMigrations.createMigrationsTable db))).migrationsTableExists = true
    rw [DatabaseMigrations.migrateToMultiListSchema_mte,
        DatabaseMigrations.addUsernameColumnMigration_mte]
    rfl
  show DatabaseMigrations.migrateToMultiListSchema
      (DatabaseMigrations.addUsernameColumnMigration
        (DatabaseMigrations.createMigrationsTable y)) = y
  have e1 : DatabaseMigrations.createMigrationsTable y = y := by
    show { y with migrationsTableExists := true } = y
    rw [← hmte]
  have e2 : DatabaseMigrations.addUsernameColumnMigration y = y := by
    unfold DatabaseMigrations.addUsernameColumnMigration
    rw [if_pos hm1]
  have e3 : DatabaseMigrations.migrateToMultiListSchema y = y := by
    unfold DatabaseMigrations.migrateToMultiListSchema
    rw [if_pos hm2]
  rw [e1, e2, e3]

/-- C1: data preservation of the normalization migration. Starting from
a legacy database (empty normalized tables, migration not yet recorded),
the new `todos` table has exactly one row per legacy row, in order, with
identical text, completed flag and created_at, and every copied row
points at the single synthesized default list, which is named
`My Tasks` and owned by the synthetic `default_user`. -/
theorem claim_C1 (db : DB)
    (hnm : ("migrate_to_multi_list_schema" : String) ∉ db.migrations)
    (hu : db.users = []) (hl : db.lists = []) (hn : db.todosNew = []) :
    (DatabaseMigrations.migrateToMultiListSchema db).todos.length =
        db.legacyTodos.length ∧
    (∀ i : Nat,
      (DatabaseMigrations.migrateToMultiListSchema db).todos[i]? =
        (db.legacyTodos[i]?).map (fun r =>
          (⟨db.nextTodoId + i, r.text, r.completed, db.nextListId, r.created_at⟩ : TodoRow))) ∧
    (db.legacyTodos ≠ [] →
      (DatabaseMigrations.migrateToMultiListSchema db).users =
          [⟨db.nextUserId, "default_user", db.now⟩] ∧
      (DatabaseMigrations.migrateToMultiListSchema db).lists =
          [⟨db.nextListId, "My Tasks", db.nextUserId, db.now⟩]) := by
  have hmain : DatabaseMigrations.migrateToMultiListSchema db =
      if db.legacyTodos.length > 0 then
        { db with
            legacyTodos := []
            todosNew := []
            todos := DatabaseMigrations.copyRows db.nextTodoId db.nextListId db.legacyTodos
            todosOld := db.legacyTodos
            users := [⟨db.nextUserId, "default_user", db.now⟩]
            lists := [⟨db.nextListId, "My Tasks", db.nextUserId, db.now⟩]
            migrations := db.migrations ++ ["migrate_to_multi_list_schema"]
            nextUserId := db.nextUserId + 1
            nextListId := db.nextListId + 1
            nextTodoId := db.nextTodoId + db.legacyTodos.length }
      else
        { db with
            legacyTodos := []
            todosNew := []
            todos := db.todosNew
            todosOld := db.legacyTodos
            migrations := db.migrations ++ ["migrate_to_multi_list_schema"] } := by
    have hfu : DatabaseMigrations.createDefaultUser db =
        (db.nextUserId,
         { db with
             users := [⟨db.nextUserId, "default_user", db.now⟩]
             nextUserId := db.nextUserId + 1 }) := by
      unfold DatabaseMigrations.createDefaultUser
      rw [hu]
      rfl
    have hfl : DatabaseMigrations.createDefaultList
        { db with
            users := [⟨db.nextUserId, "default_user", db.now⟩]
            nextUserId := db.nextUserId + 1 } db.nextUserId =
        (db.nextListId,
         { db with
             users := [⟨db.nextUserId, "default_user", db.now⟩]
             nextUserId := db.nextUserId + 1
             lists := [⟨db.nextListId, "My Tasks", db.nextUserId, db.now⟩]
             nextListId := db.nextListId + 1 }) := by
      unfold DatabaseMigrations.createDefaultList
      have hll : ({ db with
          users := [⟨db.nextUserId, "default_user", db.now⟩]
          nextUserId := db.nextUserId + 1 } : DB).lists = db.lists := rfl
      rw [hll, hl]
      rfl
    unfold DatabaseMigrations.migrateToMultiListSchema
    rw [if_neg hnm]
    dsimp only
    split
    · rw [hfu]
      dsimp only
      rw [hfl]
      dsimp only
      rw [DatabaseMigrations.migrateExistingTodos_spec]
      dsimp only
      simp [hn]
    · rfl
  refine ⟨?_, ?_, ?_⟩
  · rw [hmain]
    split
    · simp [DatabaseMigrations.copyRows_length]
    · rename_i hlen
      have : db.legacyTodos.length = 0 := by omega
      simp [hn, this]
  · intro i
    rw [hmain]
    split
    · simp [DatabaseMigrations.copyRows_getElem?]
    · rename_i hlen
      have h0 : db.legacyTodos.length = 0 := by omega
      have : db.legacyTodos = [] := List.length_eq_zero.mp h0
      simp [hn, this]
  · intro hne
    have hlen : db.legacyTodos.length > 0 := by
      cases h : db.legacyTodos with
      | nil => exact absurd h hne
      | cons a l => simp [h]
    rw [hmain, if_pos hlen]
    exact ⟨rfl, rfl⟩

/-- C1 witness: the pre-migration sample with two legacy rows. -/
theorem claim_C1_witness :
    (DatabaseMigrations.migrateToMultiListSchema samplePreMigrationDB).todos.length =
        samplePreMigrationDB.legacyTodos.length ∧
    (∀ i : Nat,
      (DatabaseMigrations.migrateToMultiListSchema samplePreMigrationDB).todos[i]? =
        (samplePreMigrationDB.legacyTodos[i]?).map (fun r =>
          (⟨samplePreMigrationDB.nextTodoId + i, r.text, r.completed,
            samplePreMigrationDB.nextListId, r.created_at⟩ : TodoRow))) ∧
    (samplePreMigrationDB.legacyTodos ≠ [] →
      (DatabaseMigrations.migrateToMultiListSchema samplePreMigrationDB).users =
          [⟨samplePreMigrationDB.nextUserId, "default_user", samplePreMigrationDB.now⟩] ∧
      (DatabaseMigrations.migrateToMultiListSchema samplePreMigrationDB).lists =
          [⟨samplePreMigrationDB.nextListId, "My Tasks", samplePreMigrationDB.nextUserId,
            samplePreMigrationDB.now⟩]) :=
  claim_C1 samplePreMigrationDB (by decide) rfl rfl rfl

/-- C10: schema detection never propagates storage errors and never
transitions once determined: with an empty cache and no `migrations`
table (the ledger query throws), `checkSchemaVersion` answers `false`
and caches it; and with any cached value, any later call returns exactly
the cached value with the state untouched, whatever the database now
contains. -/
theorem claim_C10 (st : TodoService.St) (db2 : DB) (b : Bool) :
    (st.isNewSchema = none → st.db.migrationsTableExists = false →
      TodoService.checkSchemaVersion st =
        (false, { st with isNewSchema := some false })) ∧
    TodoService.checkSchemaVersion ⟨db2, some b⟩ = (b, ⟨db2, some b⟩) := by
  constructor
  · intro h1 h2
    unfold TodoService.checkSchemaVersion
    rw [h1, h2]
    simp
  · rfl

/-- C10 witness: a database whose `migrations` table is absent but whose
ledger field would read as migrated, showing the catch path wins; the
second conjunct is exercised at a cached instance over the normalized
sample. -/
theorem claim_C10_witness :
    (TodoService.checkSchemaVersion ⟨samplePreMigrationDB, none⟩ =
      (false, ⟨samplePreMigrationDB, some false⟩)) ∧
    TodoService.checkSchemaVersion ⟨sampleNormDB, some false⟩ =
      (false, ⟨sampleNormDB, some false⟩) :=
  ⟨(claim_C10 ⟨samplePreMigrationDB, none⟩ sampleNormDB false).1 rfl rfl,
   (claim_C10 ⟨samplePreMigrationDB, none⟩ sampleNormDB false).2⟩

theorem find?_append_of_none {α : Type} (p : α → Bool) (l1 l2 : List α)
    (h : l1.find? p = none) : (l1 ++ l2).find? p = l2.find? p := by
  induction l1 with
  | nil => rfl
  | cons a l ih =>
      cases hpa : p a with
      | true => simp [List.find?, hpa] at h
      | false =>
          simp only [List.cons_append, List.find?, hpa] at h ⊢
          exact ih h

theorem reduce_getOrCreateUser_found (db : DB) (username : String) (u : UserRow)
    (h1 : (jsTrim username).length ≠ 0) (h2 : ¬ 50 < (jsTrim username).length)
    (hf : db.users.find? (fun x => x.username == jsTrim username) = some u) :
    UserService.getOrCreateUser db username = (Except.ok u, db) := by
  unfold UserService.getOrCreateUser
  dsimp only
  rw [if_neg (by simpa using h1), if_neg h2, hf]

/-- C7: `getOrCreateUser` is idempotent for every username valid under
the 1..50 nonempty-after-trim rule, on any database whose AUTOINCREMENT
counters are fresh and positive: the first call succeeds with some user,
and repeating the call returns the very same user row and leaves the
database exactly as the first call left it (no new user row, no new
default list). -/
theorem claim_C7 (db : DB) (username : String)
    (h1 : 0 < (jsTrim username).length) (h2 : (jsTrim username).length ≤ 50)
    (hnz : db.nextUserId ≠ 0)
    (hfreshU : ∀ u ∈ db.users, u.id ≠ db.nextUserId)
    (hfreshL : ∀ l ∈ db.lists, l.id ≠ db.nextListId) :
    ∃ (user : UserRow) (db1 : DB),
      UserService.getOrCreateUser db username = (Except.ok user, db1) ∧
      UserService.getOrCreateUser db1 username = (Except.ok user, db1) := by
  have h1n : (jsTrim username).length ≠ 0 := Nat.pos_iff_ne_zero.mp h1
  have h2n : ¬ 50 < (jsTrim username).length := by omega
  cases hf : db.users.find? (fun x => x.username == jsTrim username) with
  | some u =>
      exact ⟨u, db, reduce_getOrCreateUser_found db username u h1n h2n hf,
        reduce_getOrCreateUser_found db username u h1n h2n hf⟩
  | none =>
      have hfindId : (db.users ++ [(⟨db.nextUserId, jsTrim username, db.now⟩ : UserRow)]).find?
          (fun x => x.id == db.nextUserId) =
          some ⟨db.nextUserId, jsTrim username, db.now⟩ := by
        rw [find?_append_of_none]
        · simp [List.find?]
        · exact List.find?_eq_none.mpr (fun a ha => by simpa using hfreshU a ha)
      have hfindName : (db.users ++ [(⟨db.nextUserId, jsTrim username, db.now⟩ : UserRow)]).find?
          (fun x => x.username == jsTrim username) =
          some ⟨db.nextUserId, jsTrim username, db.now⟩ := by
        rw [find?_append_of_none _ _ _ hf]
        simp [List.find?]
      have hcdl : ∃ lr db2,
          UserService.createDefaultList
            { db with
                users := db.users ++ [(⟨db.nextUserId, jsTrim username, db.now⟩ : UserRow)]
                nextUserId := db.nextUserId + 1 } db.nextUserId = (Except.ok lr, db2) ∧
          db2.users = db.users ++ [(⟨db.nextUserId, jsTrim username, db.now⟩ : UserRow)] := by
        unfold UserService.createDefaultList
        dsimp only
        rw [if_neg (by simpa using hnz), hfindId]
        cases hfl : db.lists.find?
            (fun l => l.user_id == db.nextUserId && l.name == "My Tasks") with
        | some l => exact ⟨l, _, rfl, rfl⟩
        | none =>
            have hfind3 : (db.lists ++
                [(⟨db.nextListId, "My Tasks", db.nextUserId, db.now⟩ : ListRow)]).find?
                (fun l => l.id == db.nextListId) =
                some ⟨db.nextListId, "My Tasks", db.nextUserId, db.now⟩ := by
              rw [find?_append_of_none]
              · simp [List.find?]
              · exact List.find?_eq_none.mpr (fun a ha => by simpa using hfreshL a ha)
            rw [hfind3]
            exact ⟨_, _, rfl, rfl⟩
      obtain ⟨lr, db2, hcdl1, hcdl2⟩ := hcdl
      have hfindId2 : db2.users.find? (fun x => x.id == db.nextUserId) =
          some ⟨db.nextUserId, jsTrim username, db.now⟩ := by
        rw [hcdl2]; exact hfindId
      have hfirst : UserService.getOrCreateUser db username =
          (Except.ok ⟨db.nextUserId, jsTrim username, db.now⟩, db2) := by
        unfold UserService.getOrCreateUser
        dsimp only
        rw [if_neg (by simpa using h1n), if_neg h2n, hf]
        dsimp only
        rw [hcdl1]
        dsimp only
        rw [hfindId2]
      refine ⟨⟨db.nextUserId, jsTrim username, db.now⟩, db2, hfirst, ?_⟩
      have hfind2 : db2.users.find? (fun x => x.username == jsTrim username) =
          some ⟨db.nextUserId, jsTrim username, db.now⟩ := by
        rw [hcdl2]; exact hfindName
      exact reduce_getOrCreateUser_found db2 username _ h1n h2n hfind2

/-- C7 witness: a fresh valid username on the normalized sample. -/
theorem claim_C7_witness :
    ∃ (user : UserRow) (db1 : DB),
      UserService.getOrCreateUser sampleNormDB "carol" = (Except.ok user, db1) ∧
      UserService.getOrCreateUser db1 "carol" = (Except.ok user, db1) :=
  claim_C7 sampleNormDB "carol" (by decide) (by decide) (by decide)
    (by decide) (by decide)

theorem reduce_createDefaultList_insert (db : DB) (uid : Nat)
    (hnz : uid ≠ 0)
    (hfound : (db.users.find? (fun x => x.id == uid)).isSome)
    (hnolist : db.lists.find? (fun l => l.user_id == uid && l.name == "My Tasks") = none)
    (hfreshL : ∀ x ∈ db.lists, x.id ≠ db.nextListId) :
    UserService.createDefaultList db uid =
      (Except.ok ⟨db.nextListId, "My Tasks", uid, db.now⟩,
       { db with
           lists := db.lists ++ [⟨db.nextListId, "My Tasks", uid, db.now⟩]
           nextListId := db.nextListId + 1 }) := by
  obtain ⟨u, hu⟩ := Option.isSome_iff_exists.mp hfound
  have hfind3 : (db.lists ++
      [(⟨db.nextListId, "My Tasks", uid, db.now⟩ : ListRow)]).find?
      (fun l => l.id == db.nextListId) =
      some ⟨db.nextListId, "My Tasks", uid, db.now⟩ := by
    rw [find?_append_of_none]
    · simp [List.find?]
    · exact List.find?_eq_none.mpr (fun a ha => by simpa using hfreshL a ha)
  unfold UserService.createDefaultList
  dsimp only
  rw [if_neg (by simpa using hnz), hu, hnolist]
  dsimp only
  rw [hfind3]

theorem reduce_getOrCreateUser_new (db : DB) (username : String)
    (h1 : (jsTrim username).length ≠ 0) (h2 : ¬ 50 < (jsTrim username).length)
    (hnz : db.nextUserId ≠ 0)
    (hf : db.users.find? (fun x => x.username == jsTrim username) = none)
    (hfreshU : ∀ u ∈ db.users, u.id ≠ db.nextUserId)
    (hnolist : db.lists.find?
      (fun l => l.user_id == db.nextUserId && l.name == "My Tasks") = none)
    (hfreshL : ∀ x ∈ db.lists, x.id ≠ db.nextListId) :
    UserService.getOrCreateUser db username =
      (Except.ok ⟨db.nextUserId, jsTrim username, db.now⟩,
       { db with
           users := db.users ++ [⟨db.nextUserId, jsTrim username, db.now⟩]
           nextUserId := db.nextUserId + 1
           lists := db.lists ++ [⟨db.nextListId, "My Tasks", db.nextUserId, db.now⟩]
           nextListId := db.nextListId + 1 }) := by
  have hfindId : (db.users ++ [(⟨db.nextUserId, jsTrim username, db.now⟩ : UserRow)]).find?
      (fun x => x.id == db.nextUserId) =
      some ⟨db.nextUserId, jsTrim username, db.now⟩ := by
    rw [find?_append_of_none]
    · simp [List.find?]
    · exact List.find?_eq_none.mpr (fun a ha => by simpa using hfreshU a ha)
  have hstep : UserService.createDefaultList
      { db with
          users := db.users ++ [(⟨db.nextUserId, jsTrim username, db.now⟩ : UserRow)]
          nextUserId := db.nextUserId + 1 } db.nextUserId =
      (Except.ok ⟨db.nextListId, "My Tasks", db.nextUserId, db.now⟩,
       { db with
           users := db.users ++ [⟨db.nextUserId, jsTrim username, db.now⟩]
           nextUserId := db.nextUserId + 1
           lists := db.lists ++ [⟨db.nextListId, "My Tasks", db.nextUserId, db.now⟩]
           nextListId := db.nextListId + 1 }) := by
    rw [reduce_createDefaultList_insert]
    · exact hnz
    · simpa using Option.isSome_iff_exists.mpr ⟨_, hfindId⟩
    · exact hnolist
    · exact hfreshL
  unfold UserService.getOrCreateUser
  dsimp only
  rw [if_neg (by simpa using h1), if_neg h2, hf]
  dsimp only
  rw [hstep]
  dsimp only
  rw [show ((db.users ++ [(⟨db.nextUserId, jsTrim username, db.now⟩ : UserRow)]).find?
      (fun x => x.id == db.nextUserId)) = some ⟨db.nextUserId, jsTrim username, db.now⟩
    from hfindId]

/-- C4: the minimum-list invariant and its mechanisms: creating a fresh
valid user synthesizes exactly one list for it, named `My Tasks`;
deleting the only remaining list of a user fails with the conflict error
and changes nothing; and a user holding at least two lists can delete
any one of them, which removes exactly the rows with that list id. -/
theorem claim_C4 (dba dbb : DB) (username : String) (lid : Nat)
    (uid? : Option Nat) (l : ListRow) :
    (0 < (jsTrim username).length → (jsTrim username).length ≤ 50 →
     dba.nextUserId ≠ 0 →
     dba.users.find? (fun x => x.username == jsTrim username) = none →
     (∀ u ∈ dba.users, u.id ≠ dba.nextUserId) →
     (∀ x ∈ dba.lists, x.user_id ≠ dba.nextUserId) →
     (∀ x ∈ dba.lists, x.id ≠ dba.nextListId) →
     (UserService.getOrCreateUser dba username).1 =
         Except.ok ⟨dba.nextUserId, jsTrim username, dba.now⟩ ∧
     (UserService.getOrCreateUser dba username).2.lists.filter
         (fun x => x.user_id == dba.nextUserId) =
       [⟨dba.nextListId, "My Tasks", dba.nextUserId, dba.now⟩]) ∧
    (lid ≠ 0 →
     dbb.lists.find? (fun x => x.id == lid) = some l →
     (uid? = none ∨ uid? = some l.user_id) →
     dbb.lists.countP (fun x => x.user_id == l.user_id) = 1 →
     TodoListService.deleteList dbb lid uid? =
       (Except.error ("Failed to delete list: Cannot delete the last remaining list. Users must have at least one list."), dbb)) ∧
    (lid ≠ 0 →
     dbb.lists.find? (fun x => x.id == lid) = some l →
     (uid? = none ∨ uid? = some l.user_id) →
     2 ≤ dbb.lists.countP (fun x => x.user_id == l.user_id) →
     TodoListService.deleteList dbb lid uid? =
       (Except.ok (), { dbb with lists := dbb.lists.filter (fun x => !(x.id == lid)) })) := by
  refine ⟨?_, ?_, ?_⟩
  · intro h1 h2 hnz hf hfreshU hown hfreshL
    have hnolist : dba.lists.find?
        (fun x => x.user_id == dba.nextUserId && x.name == "My Tasks") = none :=
      List.find?_eq_none.mpr (fun a ha => by simp [hown a ha])
    rw [reduce_getOrCreateUser_new dba username (Nat.pos_iff_ne_zero.mp h1) (by omega)
      hnz hf hfreshU hnolist hfreshL]
    refine ⟨rfl, ?_⟩
    show (dba.lists ++ [(⟨dba.nextListId, "My Tasks", dba.nextUserId, dba.now⟩ : ListRow)]).filter
        (fun x => x.user_id == dba.nextUserId) = _
    rw [List.filter_append, List.filter_eq_nil.mpr (fun a ha => by simp [hown a ha])]
    simp [List.filter]
  · intro hlid hfind huid hcount
    unfold TodoListService.deleteList
    dsimp only
    rw [if_neg (by simpa using hlid), hfind]
    rcases huid with h | h
    · subst h
      dsimp only
      rw [hcount]
      rfl
    · subst h
      dsimp only
      simp only [bne_self_eq_false]
      rw [hcount]
      rfl
  · intro hlid hfind huid hcount
    have hpos : dbb.lists.countP (fun x => x.id == lid) ≠ 0 := by
      have hl : l ∈ dbb.lists := List.mem_of_find?_eq_some hfind
      have hp : (l.id == lid) = true := by
        have := List.find?_some hfind
        simpa using this
      have hgt : 0 < List.countP (fun x => x.id == lid) dbb.lists :=
        List.countP_pos.mpr ⟨l, hl, hp⟩
      omega
    unfold TodoListService.deleteList
    dsimp only
    rw [if_neg (by simpa using hlid), hfind]
    rcases huid with h | h
    · subst h
      dsimp only
      rw [if_neg (by omega : ¬ List.countP (fun x => x.user_id == l.user_id) dbb.lists ≤ 1),
        if_neg (show ¬ ((List.countP (fun x => x.id == lid) dbb.lists == 0) = true) by simpa using hpos)]
      rfl
    · subst h
      dsimp only
      simp only [bne_self_eq_false]
      rw [if_neg (show ¬ ((false : Bool) = true) by simp),
        if_neg (by omega : ¬ List.countP (fun x => x.user_id == l.user_id) dbb.lists ≤ 1),
        if_neg (show ¬ ((List.countP (fun x => x.id == lid) dbb.lists == 0) = true) by simpa using hpos)]

/-- Sample with one user owning two lists. -/
def sampleTwoListsDB : DB :=
  { legacyTodos := []
    todosNew := []
    todos := []
    todosOld := []
    users := [⟨1, "alice", 5⟩]
    lists := [⟨1, "My Tasks", 1, 5⟩, ⟨2, "Work", 1, 7⟩]
    migrations := ["add_username_column", "migrate_to_multi_list_schema"]
    migrationsTableExists := true
    legacyHasUsernameColumn := true
    nextUserId := 2, nextListId := 3, nextTodoId := 1, now := 99 }

/-- C4 witness: a fresh user receives one `My Tasks` list; alice cannot
delete her only list in the normalized sample; with a second list the
deletion of either succeeds. -/
theorem claim_C4_witness :
    ((UserService.getOrCreateUser sampleNormDB "carol").1 =
        Except.ok ⟨sampleNormDB.nextUserId, jsTrim "carol", sampleNormDB.now⟩ ∧
     (UserService.getOrCreateUser sampleNormDB "carol").2.lists.filter
        (fun x => x.user_id == sampleNormDB.nextUserId) =
       [⟨sampleNormDB.nextListId, "My Tasks", sampleNormDB.nextUserId, sampleNormDB.now⟩]) ∧
    (TodoListService.deleteList sampleNormDB 1 (some 1) =
      (Except.error ("Failed to delete list: Cannot delete the last remaining list. Users must have at least one list."), sampleNormDB)) ∧
    (TodoListService.deleteList sampleTwoListsDB 2 (some 1) =
      (Except.ok (), { sampleTwoListsDB with
        lists := sampleTwoListsDB.lists.filter (fun x => !(x.id == 2)) })) :=
  ⟨(claim_C4 sampleNormDB sampleNormDB "carol" 1 (some 1) ⟨1, "My Tasks", 1, 5⟩).1
      (by decide) (by decide) (by decide) (by decide) (by decide) (by decide) (by decide),
   (claim_C4 sampleNormDB sampleNormDB "carol" 1 (some 1) ⟨1, "My Tasks", 1, 5⟩).2.1
      (by decide) (by decide) (Or.inr (by decide)) (by decide),
   (claim_C4 sampleNormDB sampleTwoListsDB "carol" 2 (some 1) ⟨2, "Work", 1, 7⟩).2.2
      (by decide) (by decide) (Or.inr (by decide)) (by decide)⟩

theorem map_rename_id (lid : Nat) (l : ListRow) (lists : List ListRow)
    (huniq : ∀ x ∈ lists, x.id = lid → x = l) :
    lists.map (fun x => if x.id == lid then { x with name := l.name } else x) = lists := by
  induction lists with
  | nil => rfl
  | cons a rest ih =>
      have hrest := ih (fun x hx hid => huniq x (List.mem_cons_of_mem a hx) hid)
      simp only [List.map_cons, hrest]
      cases ha : a.id == lid with
      | false => rfl
      | true =>
          have hal : a = l := huniq a (List.mem_cons_self a rest) (by simpa using ha)
          subst hal
          rfl

/-- C8: renaming a list to a name held (case-sensitively) by a different
list of the same user fails with the duplicate-name conflict error and
leaves the database untouched, while renaming a list to its own current
name succeeds and is a no-op: the rewritten row equals the old one and
the database is returned unchanged. -/
theorem claim_C8 (db : DB) (lid : Nat) (newName : String) (l l2 : ListRow)
    (hlid : lid ≠ 0)
    (hfind : db.lists.find? (fun x => x.id == lid) = some l) :
    ((jsTrim newName).length ≠ 0 → (jsTrim newName).length ≤ 100 →
     l2 ∈ db.lists → l2.user_id = l.user_id → l2.name = jsTrim newName → l2.id ≠ lid →
     TodoListService.updateListName db lid newName none =
       (Except.error ("Failed to update list name: A list named \"" ++ jsTrim newName ++ "\" already exists for this user"), db)) ∧
    (jsTrim newName = l.name →
     0 < l.name.length → l.name.length ≤ 100 →
     (∀ x ∈ db.lists, x.id = lid → x = l) →
     (∀ x ∈ db.lists, x.user_id = l.user_id → x.name = l.name → x.id = lid) →
     TodoListService.updateListName db lid newName none = (Except.ok l, db)) := by
  constructor
  · intro hv1 hv2 hmem huser hname hid2
    have hconf : (db.lists.find? (fun x =>
        x.user_id == l.user_id && x.name == jsTrim newName && x.id != lid)).isSome := by
      rw [List.find?_isSome]
      exact ⟨l2, hmem, by simp [huser, hname, hid2]⟩
    obtain ⟨y, hy⟩ := Option.isSome_iff_exists.mp hconf
    unfold TodoListService.updateListName
    dsimp only
    rw [if_neg (by simpa using hlid),
      if_neg (show ¬ (((jsTrim newName).length == 0) = true) by simpa using hv1),
      if_neg (show ¬ (100 < (jsTrim newName).length) by omega), hfind]
    dsimp only
    rw [hy]
    rfl
  · intro hsame hl1 hl2 huniq hnodup
    have hv1 : (jsTrim newName).length ≠ 0 := by rw [hsame]; omega
    have hconf : db.lists.find? (fun x =>
        x.user_id == l.user_id && x.name == jsTrim newName && x.id != lid) = none := by
      refine List.find?_eq_none.mpr (fun x hx => ?_)
      simp only [Bool.and_eq_true, beq_iff_eq, bne_iff_ne, not_and]
      intro h1 h2
      exact h2 (hnodup x hx h1.1 (by rw [← hsame]; exact h1.2))
    have hpos : db.lists.countP (fun x => x.id == lid) ≠ 0 := by
      have hl : l ∈ db.lists := List.mem_of_find?_eq_some hfind
      have hp : (l.id == lid) = true := by
        have := List.find?_some hfind
        simpa using this
      have hgt : 0 < List.countP (fun x => x.id == lid) db.lists :=
        List.countP_pos.mpr ⟨l, hl, hp⟩
      omega
    unfold TodoListService.updateListName
    dsimp only
    rw [if_neg (by simpa using hlid),
      if_neg (show ¬ (((jsTrim newName).length == 0) = true) by simpa using hv1),
      if_neg (show ¬ (100 < (jsTrim newName).length) by rw [hsame]; omega), hfind]
    dsimp only
    rw [hconf]
    dsimp only
    rw [hsame, map_rename_id lid l db.lists huniq,
      if_neg (show ¬ ((List.countP (fun x => x.id == lid) db.lists == 0) = true) by
        simpa using hpos), hfind]
    rfl

/-- C8 witness: on the two-list sample, renaming `My Tasks` to `Work`
collides with the other list and fails; renaming it to `My Tasks` is the
accepted no-op. -/
theorem claim_C8_witness :
    (TodoListService.updateListName sampleTwoListsDB 1 "Work" none =
      (Except.error ("Failed to update list name: A list named \"" ++ jsTrim "Work" ++ "\" already exists for this user"), sampleTwoListsDB)) ∧
    (TodoListService.updateListName sampleTwoListsDB 1 "My Tasks" none =
      (Except.ok ⟨1, "My Tasks", 1, 5⟩, sampleTwoListsDB)) :=
  ⟨(claim_C8 sampleTwoListsDB 1 "Work" ⟨1, "My Tasks", 1, 5⟩ ⟨2, "Work", 1, 7⟩
      (by decide) (by decide)).1
      (by decide) (by decide) (by decide) (by decide) (by decide) (by decide),
   (claim_C8 sampleTwoListsDB 1 "My Tasks" ⟨1, "My Tasks", 1, 5⟩ ⟨2, "Work", 1, 7⟩
      (by decide) (by decide)).2
      (by decide) (by decide) (by decide) (by decide) (by decide)⟩

theorem checkSchemaVersion_db (st : TodoService.St) :
    (TodoService.checkSchemaVersion st).2.db = st.db := by
  unfold TodoService.checkSchemaVersion
  cases h : st.isNewSchema with
  | some b => rfl
  | none =>
      dsimp only
      split <;> rfl

theorem checkSchemaVersion_cache (st : TodoService.St) :
    (TodoService.checkSchemaVersion st).2.isNewSchema =
      some (TodoService.checkSchemaVersion st).1 := by
  unfold TodoService.checkSchemaVersion
  cases h : st.isNewSchema with
  | some b => exact h
  | none =>
      dsimp only
      split <;> rfl

theorem checkSchemaVersion_cached (st : TodoService.St) (b : Bool)
    (h : st.isNewSchema = some b) : TodoService.checkSchemaVersion st = (b, st) := by
  unfold TodoService.checkSchemaVersion
  rw [h]

theorem getTodoById_eq_none_new (st : TodoService.St) (id : Nat) (username : String)
    (hb : (TodoService.checkSchemaVersion st).1 = true)
    (h : ∀ u ∈ st.db.users, u.username = username →
      ∀ t ∈ st.db.todos, t.id = id →
        TodoService.ownedList st.db u.id t.list_id = false) :
    TodoService.getTodoById st id username =
      (none, (TodoService.checkSchemaVersion st).2) := by
  unfold TodoService.getTodoById
  dsimp only
  rw [hb, if_pos rfl, checkSchemaVersion_db]
  cases hu : st.db.users.find? (fun u => u.username == username) with
  | none => rfl
  | some u =>
      have hmem : u ∈ st.db.users := List.mem_of_find?_eq_some hu
      have hname : u.username = username := by
        have := List.find?_some hu
        simpa using this
      have hrow : st.db.todos.find?
          (fun t => t.id == id && TodoService.ownedList st.db u.id t.list_id) = none := by
        refine List.find?_eq_none.mpr (fun t ht => ?_)
        simp only [Bool.and_eq_true, beq_iff_eq, not_and]
        intro h1 h2
        rw [h u hmem hname t ht h1] at h2
        exact absurd h2 (by simp)
      dsimp only
      rw [hrow]
      rfl

theorem getTodoById_eq_none_legacy (st : TodoService.St) (id : Nat) (username : String)
    (hb : (TodoService.checkSchemaVersion st).1 = false)
    (h : ∀ t ∈ st.db.legacyTodos, t.id = id → t.username ≠ username) :
    TodoService.getTodoById st id username =
      (none, (TodoService.checkSchemaVersion st).2) := by
  unfold TodoService.getTodoById
  dsimp only
  rw [hb, if_neg (by simp), checkSchemaVersion_db]
  have hrow : st.db.legacyTodos.find?
      (fun t => t.id == id && t.username == username) = none := by
    refine List.find?_eq_none.mpr (fun t ht => ?_)
    simp only [Bool.and_eq_true, beq_iff_eq, not_and]
    exact fun h1 => h t ht h1
  rw [hrow]
  rfl

/-- C3: cross-owner mutation is rejected without effect, in both schema
branches: when a todo with the given id exists but none of the rows with
that id is owned by the calling username, `updateTodo` and `deleteTodo`
fail with exactly the not-found error a nonexistent id would produce —
the message depends only on the id, so ownership is not leaked through a
distinct forbidden error — and the database is unchanged. -/
theorem claim_C3 (st : TodoService.St) (idn : Nat) (B : String) (c : Bool)
    (hid : idn ≠ 0)
    (h : ((TodoService.checkSchemaVersion st).1 = true ∧
          (∃ t ∈ st.db.todos, t.id = idn) ∧
          (∀ u ∈ st.db.users, u.username = B →
            ∀ t ∈ st.db.todos, t.id = idn →
              TodoService.ownedList st.db u.id t.list_id = false)) ∨
         ((TodoService.checkSchemaVersion st).1 = false ∧
          (∃ t ∈ st.db.legacyTodos, t.id = idn) ∧
          (∀ t ∈ st.db.legacyTodos, t.id = idn → t.username ≠ B))) :
    (TodoService.updateTodo st B idn c).1 =
        Except.error ("Failed to update todo: Todo with ID " ++ toString idn ++ " not found") ∧
    (TodoService.updateTodo st B idn c).2.db = st.db ∧
    (TodoService.deleteTodo st B idn).1 =
        Except.error ("Failed to delete todo: Todo with ID " ++ toString idn ++ " not found") ∧
    (TodoService.deleteTodo st B idn).2.db = st.db := by
  have hgt : TodoService.getTodoById st idn B =
      (none, (TodoService.checkSchemaVersion st).2) := by
    rcases h with ⟨hb, _, hh⟩ | ⟨hb, _, hh⟩
    · exact getTodoById_eq_none_new st idn B hb hh
    · exact getTodoById_eq_none_legacy st idn B hb hh
  have hupd : TodoService.updateTodo st B idn c =
      (Except.error ("Failed to update todo: Todo with ID " ++ toString idn ++ " not found"),
       (TodoService.checkSchemaVersion st).2) := by
    unfold TodoService.updateTodo
    dsimp only
    rw [if_neg (show ¬ ((idn == 0) = true) by simpa using hid), hgt]
  have hdel : TodoService.deleteTodo st B idn =
      (Except.error ("Failed to delete todo: Todo with ID " ++ toString idn ++ " not found"),
       (TodoService.checkSchemaVersion st).2) := by
    unfold TodoService.deleteTodo
    dsimp only
    rw [if_neg (show ¬ ((idn == 0) = true) by simpa using hid), hgt]
  refine ⟨by rw [hupd], by rw [hupd]; exact checkSchemaVersion_db st,
    by rw [hdel], by rw [hdel]; exact checkSchemaVersion_db st⟩

/-- C3 witness: in the normalized sample bob attacks alice's todo 1 and
gets the plain not-found error; in the legacy sample a stranger attacks
the flat-table todo 1 with the same outcome. -/
theorem claim_C3_witness :
    ((TodoService.updateTodo ⟨sampleNormDB, none⟩ "bob" 1 true).1 =
        Except.error ("Failed to update todo: Todo with ID " ++ toString 1 ++ " not found") ∧
     (TodoService.updateTodo ⟨sampleNormDB, none⟩ "bob" 1 true).2.db = sampleNormDB ∧
     (TodoService.deleteTodo ⟨sampleNormDB, none⟩ "bob" 1).1 =
        Except.error ("Failed to delete todo: Todo with ID " ++ toString 1 ++ " not found") ∧
     (TodoService.deleteTodo ⟨sampleNormDB, none⟩ "bob" 1).2.db = sampleNormDB) ∧
    ((TodoService.updateTodo ⟨sampleLegacyDB, none⟩ "mallory" 1 true).1 =
        Except.error ("Failed to update todo: Todo with ID " ++ toString 1 ++ " not found") ∧
     (TodoService.updateTodo ⟨sampleLegacyDB, none⟩ "mallory" 1 true).2.db = sampleLegacyDB ∧
     (TodoService.deleteTodo ⟨sampleLegacyDB, none⟩ "mallory" 1).1 =
        Except.error ("Failed to delete todo: Todo with ID " ++ toString 1 ++ " not found") ∧
     (TodoService.deleteTodo ⟨sampleLegacyDB, none⟩ "mallory" 1).2.db = sampleLegacyDB) :=
  ⟨claim_C3 ⟨sampleNormDB, none⟩ 1 "bob" true (by decide)
      (Or.inl ⟨by decide, ⟨⟨1, "alpha", false, 1, 10⟩, by decide, rfl⟩, by decide⟩),
   claim_C3 ⟨sampleLegacyDB, none⟩ 1 "mallory" true (by decide)
      (Or.inr ⟨by decide, ⟨⟨1, "alpha", false, 10, 10, "alice"⟩, by decide, rfl⟩, by decide⟩)⟩

theorem reduce_getDefaultListId_insert (st : TodoService.St) (username : String)
    (hno : st.db.users.find? (fun u => u.username == username) = none)
    (hfreshL : ∀ l ∈ st.db.lists, l.user_id ≠ st.db.nextUserId) :
    TodoService.getDefaultListId st username =
      (st.db.nextListId,
       ⟨{ st.db with
            users := st.db.users ++ [⟨st.db.nextUserId, username, st.db.now⟩]
            nextUserId := st.db.nextUserId + 1
            lists := st.db.lists ++
              [⟨st.db.nextListId, "My Tasks", st.db.nextUserId, st.db.now⟩]
            nextListId := st.db.nextListId + 1 }, st.isNewSchema⟩) := by
  have hnl : st.db.lists.find?
      (fun l => l.user_id == st.db.nextUserId && l.name == "My Tasks") = none :=
    List.find?_eq_none.mpr (fun a ha => by simp [hfreshL a ha])
  unfold TodoService.getDefaultListId
  dsimp only
  rw [hno]
  dsimp only
  rw [hnl]

/-- C9: under the normalized schema, the owner-resolution path reached
from `getAllTodos` inserts the requested owner name into the `users`
table verbatim whenever no user with that exact string exists: no trim,
no length check, and a fresh default list is synthesized for the new
row — so even an owner string that `getOrCreateUser` would reject ends
up stored exactly as given by a mere read of the todo list. -/
theorem claim_C9 (st : TodoService.St) (username : String)
    (hb : (TodoService.checkSchemaVersion st).1 = true)
    (hno : st.db.users.find? (fun u => u.username == username) = none)
    (hfreshL : ∀ l ∈ st.db.lists, l.user_id ≠ st.db.nextUserId) :
    ∃ r, TodoService.getAllTodos st username =
      (Except.ok r,
       ⟨{ st.db with
            users := st.db.users ++ [⟨st.db.nextUserId, username, st.db.now⟩]
            nextUserId := st.db.nextUserId + 1
            lists := st.db.lists ++
              [⟨st.db.nextListId, "My Tasks", st.db.nextUserId, st.db.now⟩]
            nextListId := st.db.nextListId + 1 }, some true⟩) := by
  have hst1 : (TodoService.checkSchemaVersion st).2 =
      (⟨st.db, some true⟩ : TodoService.St) := by
    calc (TodoService.checkSchemaVersion st).2 =
        ⟨(TodoService.checkSchemaVersion st).2.db,
         (TodoService.checkSchemaVersion st).2.isNewSchema⟩ := rfl
      _ = ⟨st.db, some true⟩ := by
          rw [checkSchemaVersion_db, checkSchemaVersion_cache, hb]
  unfold TodoService.getAllTodos
  dsimp only
  rw [hb, if_pos rfl, hst1,
    reduce_getDefaultListId_insert ⟨st.db, some true⟩ username hno hfreshL]
  exact ⟨_, rfl⟩

/-- C9 witness: a 51-character owner name — longer than any name
`getOrCreateUser` accepts, as the second conjunct shows — is stored
verbatim by a read of the todo list. -/
theorem claim_C9_witness :
    (∃ r, TodoService.getAllTodos ⟨sampleNormDB, none⟩ (String.mk (List.replicate 51 'a')) =
      (Except.ok r,
       ⟨{ sampleNormDB with
            users := sampleNormDB.users ++
              [⟨sampleNormDB.nextUserId, String.mk (List.replicate 51 'a'), sampleNormDB.now⟩]
            nextUserId := sampleNormDB.nextUserId + 1
            lists := sampleNormDB.lists ++
              [⟨sampleNormDB.nextListId, "My Tasks", sampleNormDB.nextUserId, sampleNormDB.now⟩]
            nextListId := sampleNormDB.nextListId + 1 }, some true⟩)) ∧
    (UserService.getOrCreateUser sampleNormDB (String.mk (List.replicate 51 'a'))).1 =
      Except.error ("Username cannot exceed 50 characters") :=
  ⟨claim_C9 ⟨sampleNormDB, none⟩ (String.mk (List.replicate 51 'a'))
      (by decide) (by decide) (by decide),
   by rfl⟩

/-- C6: text validation and trimming in `createTodo`. With no explicit
list id: a text that trims to the empty string is rejected with the
emptiness validation error and the whole service state — database and
schema cache — is exactly as before, so no row was inserted; a text
whose trim exceeds 500 characters is rejected likewise; a valid text is
stored trimmed, as the single appended row shows, in the legacy table or
in the default list of the resolved user according to the live schema. -/
theorem claim_C6 (st : TodoService.St) (username text : String)
    (u : UserRow) (l : ListRow) :
    (jsTrim text = "" →
     TodoService.createTodo st username ⟨text, none⟩ =
       (Except.error ("Todo text cannot be empty or contain only whitespace"), st)) ∧
    (500 < (jsTrim text).length →
     TodoService.createTodo st username ⟨text, none⟩ =
       (Except.error ("Todo text cannot exceed 500 characters"), st)) ∧
    ((TodoService.checkSchemaVersion st).1 = false →
     0 < (jsTrim text).length → (jsTrim text).length ≤ 500 →
     (∀ r ∈ st.db.legacyTodos, r.id ≠ st.db.nextTodoId) →
     TodoService.createTodo st username ⟨text, none⟩ =
       (Except.ok ⟨st.db.nextTodoId, jsTrim text, false, st.db.now, st.db.now⟩,
        ⟨{ st.db with
             legacyTodos := st.db.legacyTodos ++
               [⟨st.db.nextTodoId, jsTrim text, false, st.db.now, st.db.now, username⟩]
             nextTodoId := st.db.nextTodoId + 1 }, some false⟩)) ∧
    ((TodoService.checkSchemaVersion st).1 = true →
     0 < (jsTrim text).length → (jsTrim text).length ≤ 500 →
     st.db.users.find? (fun x => x.username == username) = some u →
     st.db.lists.find? (fun x => x.user_id == u.id && x.name == "My Tasks") = some l →
     (∀ r ∈ st.db.todos, r.id ≠ st.db.nextTodoId) →
     TodoService.createTodo st username ⟨text, none⟩ =
       (Except.ok ⟨st.db.nextTodoId, jsTrim text, false, st.db.now, st.db.now⟩,
        ⟨{ st.db with
             todos := st.db.todos ++
               [⟨st.db.nextTodoId, jsTrim text, false, l.id, st.db.now⟩]
             nextTodoId := st.db.nextTodoId + 1 }, some true⟩)) := by
  refine ⟨?_, ?_, ?_, ?_⟩
  · intro hempty
    unfold TodoService.createTodo
    dsimp only
    rw [hempty]
    rfl
  · intro hlong
    unfold TodoService.createTodo
    dsimp only
    rw [if_neg (show ¬ (((jsTrim text).length == 0) = true) by simp; omega),
      if_pos hlong]
  · intro hb hv1 hv2 hfresh
    have hst1 : (TodoService.checkSchemaVersion st).2 =
        (⟨st.db, some false⟩ : TodoService.St) := by
      calc (TodoService.checkSchemaVersion st).2 =
          ⟨(TodoService.checkSchemaVersion st).2.db,
           (TodoService.checkSchemaVersion st).2.isNewSchema⟩ := rfl
        _ = ⟨st.db, some false⟩ := by
            rw [checkSchemaVersion_db, checkSchemaVersion_cache, hb]
    have hre : TodoService.getTodoById
        (⟨{ st.db with
             legacyTodos := st.db.legacyTodos ++
               [⟨st.db.nextTodoId, jsTrim text, false, st.db.now, st.db.now, username⟩]
             nextTodoId := st.db.nextTodoId + 1 }, some false⟩ : TodoService.St)
        st.db.nextTodoId username =
        (some ⟨st.db.nextTodoId, jsTrim text, false, st.db.now, st.db.now⟩,
         ⟨{ st.db with
             legacyTodos := st.db.legacyTodos ++
               [⟨st.db.nextTodoId, jsTrim text, false, st.db.now, st.db.now, username⟩]
             nextTodoId := st.db.nextTodoId + 1 }, some false⟩) := by
      have hsingle : List.find? (fun t => t.id == st.db.nextTodoId && t.username == username)
          [(⟨st.db.nextTodoId, jsTrim text, false, st.db.now, st.db.now, username⟩ :
              LegacyTodoRow)] =
          some ⟨st.db.nextTodoId, jsTrim text, false, st.db.now, st.db.now, username⟩ := by
        simp [List.find?]
      unfold TodoService.getTodoById
      rw [checkSchemaVersion_cached _ false rfl]
      dsimp only
      rw [if_neg (by simp),
        find?_append_of_none _ _ _ (List.find?_eq_none.mpr (fun a ha => by
          simp [hfresh a ha])), hsingle]
      rfl
    unfold TodoService.createTodo
    dsimp only
    rw [if_neg (show ¬ (((jsTrim text).length == 0) = true) by simp; omega),
      if_neg (show ¬ (500 < (jsTrim text).length) by omega), hb,
      if_neg (by simp), hst1]
    dsimp only
    rw [hre]
  · intro hb hv1 hv2 hu hl hfresh
    have hst1 : (TodoService.checkSchemaVersion st).2 =
        (⟨st.db, some true⟩ : TodoService.St) := by
      calc (TodoService.checkSchemaVersion st).2 =
          ⟨(TodoService.checkSchemaVersion st).2.db,
           (TodoService.checkSchemaVersion st).2.isNewSchema⟩ := rfl
        _ = ⟨st.db, some true⟩ := by
            rw [checkSchemaVersion_db, checkSchemaVersion_cache, hb]
    have hgdl : TodoService.getDefaultListId (⟨st.db, some true⟩ : TodoService.St) username =
        (l.id, (⟨st.db, some true⟩ : TodoService.St)) := by
      unfold TodoService.getDefaultListId
      dsimp only
      rw [hu]
      dsimp only
      rw [hl]
    have howned : TodoService.ownedList st.db u.id l.id = true := by
      have hmem : l ∈ st.db.lists := List.mem_of_find?_eq_some hl
      have hp := List.find?_some hl
      simp only [Bool.and_eq_true, beq_iff_eq] at hp
      exact List.any_eq_true.mpr ⟨l, hmem, by simp [hp.1]⟩
    have hre : TodoService.getTodoById
        (⟨{ st.db with
             todos := st.db.todos ++
               [⟨st.db.nextTodoId, jsTrim text, false, l.id, st.db.now⟩]
             nextTodoId := st.db.nextTodoId + 1 }, some true⟩ : TodoService.St)
        st.db.nextTodoId username =
        (some ⟨st.db.nextTodoId, jsTrim text, false, st.db.now, st.db.now⟩,
         ⟨{ st.db with
             todos := st.db.todos ++
               [⟨st.db.nextTodoId, jsTrim text, false, l.id, st.db.now⟩]
             nextTodoId := st.db.nextTodoId + 1 }, some true⟩) := by
      have howned2 : st.db.lists.any (fun x => x.id == l.id && x.user_id == u.id) = true := by
        simpa [TodoService.ownedList] using howned
      unfold TodoService.getTodoById
      rw [checkSchemaVersion_cached _ true rfl]
      dsimp only
      rw [if_pos rfl, hu]
      dsimp only
      simp only [TodoService.ownedList]
      rw [find?_append_of_none _ _ _ (List.find?_eq_none.mpr (fun a ha => by
          simp [hfresh a ha]))]
      have hsingle : List.find? (fun t => t.id == st.db.nextTodoId &&
          st.db.lists.any (fun x => x.id == t.list_id && x.user_id == u.id))
          [(⟨st.db.nextTodoId, jsTrim text, false, l.id, st.db.now⟩ : TodoRow)] =
          some ⟨st.db.nextTodoId, jsTrim text, false, l.id, st.db.now⟩ := by
        simp [List.find?, howned2]
      rw [hsingle]
      rfl
    unfold TodoService.createTodo
    dsimp only
    rw [if_neg (show ¬ (((jsTrim text).length == 0) = true) by simp; omega),
      if_neg (show ¬ (500 < (jsTrim text).length) by omega), hb,
      if_pos rfl, hst1, hgdl]
    dsimp only
    rw [hre]

/-- C6 witness: on both schema branches, text with surrounding blanks is
stored trimmed; the empty, blank-only and 501-character texts are
rejected with the exact validation errors, leaving the state intact. -/
theorem claim_C6_witness :
    (TodoService.createTodo ⟨sampleNormDB, none⟩ "alice" ⟨"", none⟩ =
      (Except.error ("Todo text cannot be empty or contain only whitespace"),
       ⟨sampleNormDB, none⟩)) ∧
    (TodoService.createTodo ⟨sampleNormDB, none⟩ "alice" ⟨"   ", none⟩ =
      (Except.error ("Todo text cannot be empty or contain only whitespace"),
       ⟨sampleNormDB, none⟩)) ∧
    (TodoService.createTodo ⟨sampleNormDB, none⟩ "alice"
        ⟨String.mk (List.replicate 501 'a'), none⟩ =
      (Except.error ("Todo text cannot exceed 500 characters"), ⟨sampleNormDB, none⟩)) ∧
    (TodoService.createTodo ⟨sampleNormDB, none⟩ "alice" ⟨"  Buy milk  ", none⟩ =
      (Except.ok ⟨sampleNormDB.nextTodoId, jsTrim "  Buy milk  ", false,
          sampleNormDB.now, sampleNormDB.now⟩,
       ⟨{ sampleNormDB with
            todos := sampleNormDB.todos ++
              [⟨sampleNormDB.nextTodoId, jsTrim "  Buy milk  ", false, 1, sampleNormDB.now⟩]
            nextTodoId := sampleNormDB.nextTodoId + 1 }, some true⟩)) ∧
    (TodoService.createTodo ⟨sampleLegacyDB, none⟩ "alice" ⟨"  Buy milk  ", none⟩ =
      (Except.ok ⟨sampleLegacyDB.nextTodoId, jsTrim "  Buy milk  ", false,
          sampleLegacyDB.now, sampleLegacyDB.now⟩,
       ⟨{ sampleLegacyDB with
            legacyTodos := sampleLegacyDB.legacyTodos ++
              [⟨sampleLegacyDB.nextTodoId, jsTrim "  Buy milk  ", false,
                sampleLegacyDB.now, sampleLegacyDB.now, "alice"⟩]
            nextTodoId := sampleLegacyDB.nextTodoId + 1 }, some false⟩)) :=
  ⟨(claim_C6 ⟨sampleNormDB, none⟩ "alice" "" ⟨1, "alice", 5⟩ ⟨1, "My Tasks", 1, 5⟩).1
      (by decide),
   (claim_C6 ⟨sampleNormDB, none⟩ "alice" "   " ⟨1, "alice", 5⟩ ⟨1, "My Tasks", 1, 5⟩).1
      (by decide),
   (claim_C6 ⟨sampleNormDB, none⟩ "alice" (String.mk (List.replicate 501 'a'))
      ⟨1, "alice", 5⟩ ⟨1, "My Tasks", 1, 5⟩).2.1 (by decide),
   (claim_C6 ⟨sampleNormDB, none⟩ "alice" "  Buy milk  "
      ⟨1, "alice", 5⟩ ⟨1, "My Tasks", 1, 5⟩).2.2.2 (by decide) (by decide) (by decide)
      (by decide) (by decide) (by decide),
   (claim_C6 ⟨sampleLegacyDB, none⟩ "alice" "  Buy milk  "
      ⟨1, "alice", 5⟩ ⟨1, "My Tasks", 1, 5⟩).2.2.1 (by decide) (by decide) (by decide)
      (by decide)⟩

theorem find?_map_moved (todoId target : Nat) (t : TodoRow) :
    ∀ todos : List TodoRow, t ∈ todos → t.id = todoId →
      (∀ x ∈ todos, x.id = todoId → x = t) →
      (todos.map (fun x => if x.id == todoId then { x with list_id := target } else x)).find?
          (fun x => x.id == todoId && x.list_id == target) =
        some { t with list_id := target } := by
  intro todos
  induction todos with
  | nil => intro hmem; cases hmem
  | cons a rest ih =>
      intro hmem htid huniq
      cases ha : a.id == todoId with
      | true =>
          have hat : a = t := huniq a (List.mem_cons_self a rest) (by simpa using ha)
          subst hat
          simp [List.find?, ha]
      | false =>
          have hmem2 : t ∈ rest := by
            cases List.mem_cons.mp hmem with
            | inl h =>
                exfalso
                rw [← h, htid] at ha
                simp at ha
            | inr h => exact h
          have ih2 := ih hmem2 htid (fun x hx hid => huniq x (List.mem_cons_of_mem a hx) hid)
          simp only [List.map_cons, List.find?, ha]
          simpa [ha] using ih2

/-- C5: frame and failure condition of `moveTodoToList`. When the target
list belongs to the caller and the todo sits in one of the caller's
lists, the move succeeds, rewrites only the `list_id` of the rows with
the moved id (text, completed flag and created_at stay), and returns the
todo with its preserved fields; when the target-list ownership check
fails, or the todo is not in any list of the caller, the call fails with
the corresponding not-found error and the database — in particular the
todo's `list_id` — is unchanged. -/
theorem claim_C5 (st : TodoService.St) (todoId targetListId userId : Nat)
    (t : TodoRow) (tl : ListRow)
    (h1 : todoId ≠ 0) (h2 : targetListId ≠ 0) (h3 : userId ≠ 0)
    (hb : (TodoService.checkSchemaVersion st).1 = true) :
    (st.db.lists.find? (fun x => x.id == targetListId && x.user_id == userId) = some tl →
     st.db.todos.find?
        (fun x => x.id == todoId && TodoService.ownedList st.db userId x.list_id) = some t →
     (∀ x ∈ st.db.todos, x.id = todoId → x = t) →
     TodoService.moveTodoToList st todoId targetListId userId =
       (Except.ok ⟨t.id, t.text, t.completed, targetListId, t.created_at⟩,
        ⟨{ st.db with todos := st.db.todos.map (fun x =>
             if x.id == todoId then { x with list_id := targetListId } else x) },
         some true⟩)) ∧
    (st.db.lists.find? (fun x => x.id == targetListId && x.user_id == userId) = none →
     (TodoService.moveTodoToList st todoId targetListId userId).1 =
        Except.error ("Failed to move todo: Target list not found or does not belong to user") ∧
     (TodoService.moveTodoToList st todoId targetListId userId).2.db = st.db) ∧
    (st.db.lists.find? (fun x => x.id == targetListId && x.user_id == userId) = some tl →
     st.db.todos.find?
        (fun x => x.id == todoId && TodoService.ownedList st.db userId x.list_id) = none →
     (TodoService.moveTodoToList st todoId targetListId userId).1 =
        Except.error ("Failed to move todo: Todo not found or does not belong to user") ∧
     (TodoService.moveTodoToList st todoId targetListId userId).2.db = st.db) := by
  have hst1 : (TodoService.checkSchemaVersion st).2 =
      (⟨st.db, some true⟩ : TodoService.St) := by
    calc (TodoService.checkSchemaVersion st).2 =
        ⟨(TodoService.checkSchemaVersion st).2.db,
         (TodoService.checkSchemaVersion st).2.isNewSchema⟩ := rfl
      _ = ⟨st.db, some true⟩ := by
          rw [checkSchemaVersion_db, checkSchemaVersion_cache, hb]
  refine ⟨?_, ?_, ?_⟩
  · intro htl ht huniq
    have hmem : t ∈ st.db.todos := List.mem_of_find?_eq_some ht
    have htid : t.id = todoId := by
      have := List.find?_some ht
      simp only [Bool.and_eq_true, beq_iff_eq] at this
      exact this.1
    have hpos : st.db.todos.countP (fun x => x.id == todoId) ≠ 0 := by
      have hgt : 0 < List.countP (fun x => x.id == todoId) st.db.todos :=
        List.countP_pos.mpr ⟨t, hmem, by simp [htid]⟩
      omega
    have hre : TodoService.getTodoByIdInList
        (⟨{ st.db with todos := st.db.todos.map (fun x =>
             if x.id == todoId then { x with list_id := targetListId } else x) },
          some true⟩ : TodoService.St) todoId targetListId =
        (Except.ok (some ⟨t.id, t.text, t.completed, targetListId, t.created_at⟩),
         ⟨{ st.db with todos := st.db.todos.map (fun x =>
             if x.id == todoId then { x with list_id := targetListId } else x) },
          some true⟩) := by
      unfold TodoService.getTodoByIdInList
      rw [checkSchemaVersion_cached _ true rfl]
      dsimp only
      rw [if_pos rfl, find?_map_moved todoId targetListId t st.db.todos hmem htid huniq]
      rfl
    unfold TodoService.moveTodoToList
    dsimp only
    rw [if_neg (show ¬ ((todoId == 0) = true) by simpa using h1),
      if_neg (show ¬ ((targetListId == 0) = true) by simpa using h2),
      if_neg (show ¬ ((userId == 0) = true) by simpa using h3),
      hb, if_neg (by simp), hst1]
    dsimp only
    rw [htl]
    dsimp only
    rw [ht]
    dsimp only
    rw [if_neg (show ¬ ((List.countP (fun x => x.id == todoId) st.db.todos == 0) = true) by
      simpa using hpos), hre]
  · intro htl
    have hmove : TodoService.moveTodoToList st todoId targetListId userId =
        (Except.error ("Failed to move todo: Target list not found or does not belong to user"),
         (⟨st.db, some true⟩ : TodoService.St)) := by
      unfold TodoService.moveTodoToList
      dsimp only
      rw [if_neg (show ¬ ((todoId == 0) = true) by simpa using h1),
        if_neg (show ¬ ((targetListId == 0) = true) by simpa using h2),
        if_neg (show ¬ ((userId == 0) = true) by simpa using h3),
        hb, if_neg (by simp), hst1]
      dsimp only
      rw [htl]
    rw [hmove]
    exact ⟨rfl, rfl⟩
  · intro htl ht
    have hmove : TodoService.moveTodoToList st todoId targetListId userId =
        (Except.error ("Failed to move todo: Todo not found or does not belong to user"),
         (⟨st.db, some true⟩ : TodoService.St)) := by
      unfold TodoService.moveTodoToList
      dsimp only
      rw [if_neg (show ¬ ((todoId == 0) = true) by simpa using h1),
        if_neg (show ¬ ((targetListId == 0) = true) by simpa using h2),
        if_neg (show ¬ ((userId == 0) = true) by simpa using h3),
        hb, if_neg (by simp), hst1]
      dsimp only
      rw [htl]
      dsimp only
      rw [ht]
    rw [hmove]
    exact ⟨rfl, rfl⟩

/-- Sample for moves: alice owns lists 1 and 2 with todo 1 in list 1;
bob owns list 3. -/
def sampleMoveDB : DB :=
  { legacyTodos := []
    todosNew := []
    todos := [⟨1, "alpha", false, 1, 10⟩]
    todosOld := []
    users := [⟨1, "alice", 5⟩, ⟨2, "bob", 6⟩]
    lists := [⟨1, "My Tasks", 1, 5⟩, ⟨2, "Work", 1, 7⟩, ⟨3, "My Tasks", 2, 6⟩]
    migrations := ["add_username_column", "migrate_to_multi_list_schema"]
    migrationsTableExists := true
    legacyHasUsernameColumn := true
    nextUserId := 3, nextListId := 4, nextTodoId := 2, now := 99 }

/-- C5 witness: alice moves her todo from list 1 to list 2 and only the
`list_id` changes; moving it toward bob's list fails for alice at the
target check; bob cannot move alice's todo into his own list either. -/
theorem claim_C5_witness :
    (TodoService.moveTodoToList ⟨sampleMoveDB, none⟩ 1 2 1 =
      (Except.ok ⟨1, "alpha", false, 2, 10⟩,
       ⟨{ sampleMoveDB with todos := sampleMoveDB.todos.map (fun x =>
            if x.id == 1 then { x with list_id := 2 } else x) }, some true⟩)) ∧
    ((TodoService.moveTodoToList ⟨sampleMoveDB, none⟩ 1 3 1).1 =
        Except.error ("Failed to move todo: Target list not found or does not belong to user") ∧
     (TodoService.moveTodoToList ⟨sampleMoveDB, none⟩ 1 3 1).2.db = sampleMoveDB) ∧
    ((TodoService.moveTodoToList ⟨sampleMoveDB, none⟩ 1 3 2).1 =
        Except.error ("Failed to move todo: Todo not found or does not belong to user") ∧
     (TodoService.moveTodoToList ⟨sampleMoveDB, none⟩ 1 3 2).2.db = sampleMoveDB) :=
  ⟨(claim_C5 ⟨sampleMoveDB, none⟩ 1 2 1 ⟨1, "alpha", false, 1, 10⟩ ⟨2, "Work", 1, 7⟩
      (by decide) (by decide) (by decide) (by decide)).1
      (by decide) (by decide) (by decide),
   (claim_C5 ⟨sampleMoveDB, none⟩ 1 3 1 ⟨1, "alpha", false, 1, 10⟩ ⟨2, "Work", 1, 7⟩
      (by decide) (by decide) (by decide) (by decide)).2.1 (by decide),
   (claim_C5 ⟨sampleMoveDB, none⟩ 1 3 2 ⟨1, "alpha", false, 1, 10⟩ ⟨3, "My Tasks", 2, 6⟩
      (by decide) (by decide) (by decide) (by decide)).2.2 (by decide) (by decide)⟩

end KiroTodo
